import Mathlib

/-!
Shallow embedding of the `preferred-network-registry` repository:

* `src/hardhat/contracts/PreferedNetworkRegistry.sol` — an eleven-line
  registry contract mapping accounts to an unsigned "preferred network"
  identifier, with a guarded setter and a getter.
* `src/client/src/PreferedNetworkRegistry.ts` — a viem-based TypeScript
  client wrapping the contract with read/write/pay/ENS-resolution helpers
  and an event-subscription lifecycle.  The file contains two variants of
  the client (an untyped one and a strict-typed one); both are embedded
  where they differ.

Machine integers: the contract slot type is `uint256`; the contract performs
no arithmetic, so values are embedded as `Nat` (the ABI guarantees arguments
are in range, and no operation here can overflow).  JavaScript `Number(bigint)`
conversion is embedded as round-to-nearest-even to 53 significant bits.
-/

set_option maxRecDepth 10000

/-- Chain account identifiers (Solidity `address`, TS `0x`-prefixed string). -/
abbrev Address : Type := String

namespace PreferedNetworkRegistry

/-- `mapping(address => uint) public networkPreferences`.
Solidity mappings read as `0` for every key never written. -/
abbrev ContractState : Type := Address → Nat

/-- `event NetworkPreferenceSet(address indexed user, uint network)` -/
structure NetworkPreferenceSet where
  user : Address
  network : Nat
deriving DecidableEq, Repr

/-- `setPreferredNetwork(uint _network)`:
`require(_network > 0, "Invalid network ID");`
`networkPreferences[msg.sender] = _network;`
`emit NetworkPreferenceSet(msg.sender, _network);`
Returns the post-state and the emitted event, or the revert message. -/
def setPreferredNetwork (s : ContractState) (sender : Address) (network : Nat) :
    Except String (ContractState × NetworkPreferenceSet) :=
  if network > 0 then
    .ok (fun a => if a = sender then network else s a, ⟨sender, network⟩)
  else
    .error "Invalid network ID"

/-- `getPreferredNetwork(address _user)`: `return networkPreferences[_user];` -/
def getPreferredNetwork (s : ContractState) (user : Address) : Nat := s user

/-- The state right after deployment: every mapping slot is zero. -/
def initialState : ContractState := fun _ => 0

/-- Contract states reachable from deployment, remembering the list of
accounts that performed a successful `setPreferredNetwork` call. -/
inductive Reachable : ContractState → List Address → Prop
  | init : Reachable initialState []
  | step {s ws sender n s2 ev} :
      Reachable s ws →
      setPreferredNetwork s sender n = .ok (s2, ev) →
      Reachable s2 (sender :: ws)

/-- Zero or more successful `setPreferredNetwork` calls, none of them sent
by account `A` (writes by other accounts may intervene). -/
inductive WritesAvoiding (A : Address) : ContractState → ContractState → Prop
  | refl (s) : WritesAvoiding A s s
  | step {s s2 s3 sender n ev} :
      sender ≠ A →
      setPreferredNetwork s sender n = .ok (s2, ev) →
      WritesAvoiding A s2 s3 →
      WritesAvoiding A s s3

/-- A successful write determines the post-state pointwise. -/
theorem setPreferredNetwork_ok_state {s : ContractState} {sender : Address} {n : Nat}
    {s2 : ContractState} {ev : NetworkPreferenceSet}
    (h : setPreferredNetwork s sender n = .ok (s2, ev)) :
    s2 = fun a => if a = sender then n else s a := by
  unfold setPreferredNetwork at h
  by_cases hn : n > 0
  · rw [if_pos hn] at h
    injection h with h
    exact (congrArg Prod.fst h).symm
  · rw [if_neg hn] at h
    exact absurd h (by simp)

/-- A successful write determines the emitted event. -/
theorem setPreferredNetwork_ok_event {s : ContractState} {sender : Address} {n : Nat}
    {s2 : ContractState} {ev : NetworkPreferenceSet}
    (h : setPreferredNetwork s sender n = .ok (s2, ev)) :
    ev = ⟨sender, n⟩ := by
  unfold setPreferredNetwork at h
  by_cases hn : n > 0
  · rw [if_pos hn] at h
    injection h with h
    exact (congrArg Prod.snd h).symm
  · rw [if_neg hn] at h
    exact absurd h (by simp)

/-- Writes avoiding `A` leave `A`'s slot unchanged. -/
theorem writesAvoiding_preserve {A : Address} {s s2 : ContractState}
    (h : WritesAvoiding A s s2) : s2 A = s A := by
  induction h with
  | refl s => rfl
  | step hne hok _ ih =>
      rw [ih, setPreferredNetwork_ok_state hok]
      simp [Ne.symm hne]

end PreferedNetworkRegistry

open PreferedNetworkRegistry in
/-- Claim C1: for every account `A` and positive `n`, if `setPreferredNetwork n`
invoked by `A` succeeds, then any subsequent `getPreferredNetwork A` with no
intervening (successful) write by `A` returns `n`. -/
theorem write_then_read_consistency
    (s : PreferedNetworkRegistry.ContractState) (A : Address) (n : Nat)
    (s2 s3 : PreferedNetworkRegistry.ContractState)
    (ev : PreferedNetworkRegistry.NetworkPreferenceSet)
    (hn : 0 < n)
    (hset : setPreferredNetwork s A n = .ok (s2, ev))
    (hrest : WritesAvoiding A s2 s3) :
    getPreferredNetwork s3 A = n := by
  have h2 : s2 A = n := by
    rw [setPreferredNetwork_ok_state hset]; simp
  unfold getPreferredNetwork
  rw [writesAvoiding_preserve hrest, h2]

open PreferedNetworkRegistry in
/-- Witness for C1: account `"0xAAA"` sets `7` from the deployment state and
immediately reads back `7`. -/
theorem write_then_read_consistency_witness :
    getPreferredNetwork (fun a => if a = "0xAAA" then 7 else 0) "0xAAA" = 7 :=
  write_then_read_consistency initialState "0xAAA" 7
    (fun a => if a = "0xAAA" then 7 else 0) _ ⟨"0xAAA", 7⟩
    (by decide) rfl (WritesAvoiding.refl _)

open PreferedNetworkRegistry in
/-- Claim C5: in every reachable contract state, an account that never successfully
called the setter reads the unset sentinel `0`. -/
theorem unset_accounts_read_zero
    (s : PreferedNetworkRegistry.ContractState) (ws : List Address) (A : Address)
    (hreach : Reachable s ws) :
    A ∉ ws → getPreferredNetwork s A = 0 := by
  induction hreach with
  | init => intro _; rfl
  | step _ hok ih =>
      intro hA
      simp only [List.mem_cons, not_or] at hA
      unfold getPreferredNetwork
      rw [setPreferredNetwork_ok_state hok]
      simp [hA.1]
      exact ih hA.2

open PreferedNetworkRegistry in
/-- Witness for C5: after `"0xAAA"` writes `5` starting from deployment,
`"0xBBB"` (which never wrote) still reads `0`. -/
theorem unset_accounts_read_zero_witness :
    getPreferredNetwork (fun a => if a = "0xAAA" then 5 else 0) "0xBBB" = 0 :=
  unset_accounts_read_zero (fun a => if a = "0xAAA" then 5 else 0) ["0xAAA"] "0xBBB"
    (@Reachable.step initialState [] "0xAAA" 5
      (fun a => if a = "0xAAA" then 5 else 0) ⟨"0xAAA", 5⟩ Reachable.init rfl)
    (by decide)

open PreferedNetworkRegistry in
/-- Claim C9: a successful `setPreferredNetwork n` by caller `A` updates only `A`'s
own registry entry — every other account's stored preference is unchanged —
sets `A`'s entry to `n`, and emits `NetworkPreferenceSet(A, n)`. -/
theorem setPreferredNetwork_frame_and_event
    (s : PreferedNetworkRegistry.ContractState) (A : Address) (n : Nat)
    (s2 : PreferedNetworkRegistry.ContractState)
    (ev : PreferedNetworkRegistry.NetworkPreferenceSet)
    (hn : 0 < n)
    (hset : setPreferredNetwork s A n = .ok (s2, ev)) :
    (∀ B : Address, B ≠ A → getPreferredNetwork s2 B = getPreferredNetwork s B) ∧
      getPreferredNetwork s2 A = n ∧ ev = ⟨A, n⟩ := by
  refine ⟨?_, ?_, setPreferredNetwork_ok_event hset⟩
  · intro B hB
    unfold getPreferredNetwork
    rw [setPreferredNetwork_ok_state hset]
    simp [hB]
  · unfold getPreferredNetwork
    rw [setPreferredNetwork_ok_state hset]
    simp

open PreferedNetworkRegistry in
/-- Witness for C9: `"0xAAA"` writes `5` from deployment; `"0xBBB"`'s slot is
unchanged. -/
theorem setPreferredNetwork_frame_and_event_witness :
    getPreferredNetwork (fun a => if a = "0xAAA" then 5 else 0) "0xBBB"
      = getPreferredNetwork initialState "0xBBB" :=
  (setPreferredNetwork_frame_and_event initialState "0xAAA" 5
    (fun a => if a = "0xAAA" then 5 else 0) ⟨"0xAAA", 5⟩ (by decide) rfl).1
    "0xBBB" (by decide)

namespace Client

/-- Structural bit-count helper (`fuel` bounds the recursion; 320 suffices
for every value below `2 ^ 320`, far above the `uint256` range). -/
def bitLenAux : Nat → Nat → Nat
  | 0, _ => 0
  | fuel + 1, n => if n = 0 then 0 else bitLenAux fuel (n / 2) + 1

/-- Number of binary digits of `n` (`0` for `n = 0`). -/
def bitLen (n : Nat) : Nat := bitLenAux 320 n

/-- JavaScript `Number(bigint)` on a non-negative value: round to the nearest
IEEE-754 double (53 significant bits, ties to even).  Registry values are
below `2 ^ 256`, far below the double overflow threshold, so no infinity
case arises. -/
def jsNumber (m : Nat) : Nat :=
  if m < 2 ^ 53 then m
  else
    let e := bitLen m - 53
    let q := m / 2 ^ e
    let r := m % 2 ^ e
    let half := 2 ^ (e - 1)
    let q2 := if half < r ∨ (r = half ∧ q % 2 = 1) then q + 1 else q
    q2 * 2 ^ e

/-- One call issued against the client's collaborators (the bound contract
handle, the wallet client, and the public client). -/
inductive CallEvent
  | readPreference (account : Address)
  | getAddresses
  | getEnsAddress (name : String)
  | switchChain (id : Nat)
  | writeSetPreferredNetwork (account : Address) (network : Nat)
  | sendTransaction (account toAcct : Address) (value : Nat)
  | waitForTransactionReceipt (hash : Nat)
deriving DecidableEq, Repr

/-- Whether a call is a `wallet.sendTransaction` (a value transfer). -/
def CallEvent.isSendTransaction : CallEvent → Bool
  | .sendTransaction _ _ _ => true
  | _ => false

/-- `publicClient.waitForTransactionReceipt` result, identified by the
transaction hash it confirms. -/
structure TransactionReceipt where
  transactionHash : Nat
deriving DecidableEq, Repr

/-- The collaborators' observable state: the registry contract storage, the
wallet's account list, the ENS resolver (an opaque `name → account | absent`
map), the wallet's active chain, and a counter producing fresh transaction
hashes. -/
structure World where
  contractState : PreferedNetworkRegistry.ContractState
  walletAddresses : List Address
  ens : String → Option Address
  activeChainId : Nat
  nonce : Nat

/-- Execution state of one client call: the world plus the list of
collaborator calls issued so far. -/
structure St where
  world : World
  trace : List CallEvent

/-- Client computations: state passing with JS-style exceptions.  A thrown
error aborts the continuation but the side effects (and calls) already
performed remain, exactly as in the asynchronous TypeScript code. -/
def ClientM (α : Type) : Type := St → Except String α × St

def ClientM.pure {α : Type} (a : α) : ClientM α := fun s => (.ok a, s)

def ClientM.bind {α β : Type} (x : ClientM α) (f : α → ClientM β) : ClientM β :=
  fun s =>
    match x s with
    | (.ok a, s2) => f a s2
    | (.error e, s2) => (.error e, s2)

instance : Monad ClientM where
  pure := ClientM.pure
  bind := ClientM.bind

/-- JS `throw new Error(e)` (no catch anywhere in this client). -/
def jsThrow {α : Type} (e : String) : ClientM α := fun s => (.error e, s)

/-- `wallet.getAddresses()`. -/
def getAddressesOp : ClientM (List Address) := fun s =>
  (.ok s.world.walletAddresses, ⟨s.world, s.trace ++ [.getAddresses]⟩)

/-- `contract.read.getPreferredNetwork([a])`. -/
def readPreferenceOp (a : Address) : ClientM Nat := fun s =>
  (.ok (PreferedNetworkRegistry.getPreferredNetwork s.world.contractState a),
   ⟨s.world, s.trace ++ [.readPreference a]⟩)

/-- `publicClient.getEnsAddress` on `name`: `null` when the name does not
resolve, embedded as `none`. -/
def getEnsAddressOp (name : String) : ClientM (Option Address) := fun s =>
  (.ok (s.world.ens name), ⟨s.world, s.trace ++ [.getEnsAddress name]⟩)

/-- `wallet.switchChain` with the given `id`: repoints the active connection. -/
def switchChainOp (id : Nat) : ClientM Unit := fun s =>
  (.ok (), ⟨{ s.world with activeChainId := id }, s.trace ++ [.switchChain id]⟩)

/-- `wallet.sendTransaction` with the account, recipient and value: returns the fresh
transaction hash (transport assumed up; transport failures are out of the
claims' scope). -/
def sendTransactionOp (account toAcct : Address) (value : Nat) : ClientM Nat := fun s =>
  (.ok s.world.nonce,
   ⟨{ s.world with nonce := s.world.nonce + 1 },
    s.trace ++ [.sendTransaction account toAcct value]⟩)

/-- `publicClient.waitForTransactionReceipt` on `hash`. -/
def waitForTransactionReceiptOp (hash : Nat) : ClientM TransactionReceipt := fun s =>
  (.ok ⟨hash⟩, ⟨s.world, s.trace ++ [.waitForTransactionReceipt hash]⟩)

/-- `contract.write.setPreferredNetwork([network])` for the active account: runs the
contract entry point; a revert surfaces as a thrown error with the revert
string, untranslated. -/
def writeSetPreferredNetworkOp (account : Address) (network : Nat) : ClientM Nat :=
  fun s =>
    match PreferedNetworkRegistry.setPreferredNetwork s.world.contractState account network with
    | .ok (cs2, _ev) =>
        (.ok s.world.nonce,
         ⟨{ s.world with contractState := cs2, nonce := s.world.nonce + 1 },
          s.trace ++ [.writeSetPreferredNetwork account network]⟩)
    | .error e =>
        (.error e, ⟨s.world, s.trace ++ [.writeSetPreferredNetwork account network]⟩)

/-- `(await wallet.getAddresses())[0]` — the index-0 convention.  On an empty
account list the JS expression yields `undefined` and the first collaborator
to consume it rejects; embedded as an immediate error (every theorem below
runs with a non-empty wallet, so this branch is never exercised). -/
def getCurrentAddress : ClientM Address := do
  let addrs ← getAddressesOp
  match addrs.head? with
  | some a => pure a
  | none => jsThrow "TypeError: undefined account"

/-- viem's ENSIP-15 `normalize`; embedded as the identity, which is exact on
the already-normalized literal `"wevm.eth"`, the only string this repository
applies it to. -/
def normalize (name : String) : String := name

/-- Client `getPreferredNetwork`: `contract.read.getPreferredNetwork([address])`. -/
def getPreferredNetwork (address : Address) : ClientM Nat :=
  readPreferenceOp address

/-- Client `getPreferedNetworkFromENS` (strict-typed variant, source lines
292–302).  Note the source resolves the hard-coded `normalize('wevm.eth')`,
not its `ens` parameter. -/
def getPreferedNetworkFromENS (ens : String) : ClientM (Option Nat) := do
  let ensAddress ← getEnsAddressOp (normalize "wevm.eth")
  match ensAddress with
  | none => pure none
  | some a => do
      let n ← getPreferredNetwork a
      pure (some n)

/-- Client `resolveCurrentPreferredNetwork`. -/
def resolveCurrentPreferredNetwork : ClientM Nat := do
  let a ← getCurrentAddress
  readPreferenceOp a

/-- Client `switchToPreferredNetwork`:
`wallet.switchChain` with id `Number(network)`. -/
def switchToPreferredNetwork : ClientM Unit := do
  let account ← getCurrentAddress
  let network ← readPreferenceOp account
  switchChainOp (jsNumber network)

/-- Client `setPreferredNetwork`: resolves the active account, then calls the
contract write; no pre-validation and no catch around the contract error. -/
def setPreferredNetwork (network : Nat) : ClientM Nat := do
  let account ← getCurrentAddress
  writeSetPreferredNetworkOp account network

/-- Client `payAddress`: `sendTransaction` then `waitForTransactionReceipt`. -/
def payAddress (toAcct : Address) (value : Nat) : ClientM TransactionReceipt := do
  let account ← getCurrentAddress
  let hash ← sendTransactionOp account toAcct value
  waitForTransactionReceiptOp hash

/-- Client `payENSAddress` (strict-typed variant, source lines 364–375). -/
def payENSAddress (name : String) (value : Nat) : ClientM TransactionReceipt := do
  let address ← getEnsAddressOp name
  match address with
  | none => jsThrow ("Could not resolve address for ENS name: " ++ name)
  | some a => payAddress a value

/-- Client `payOnPreferedNetwork` (source lines 383–390): read the recipient's
preference, switch the wallet to `Number(preference)`, then pay. -/
def payOnPreferedNetwork (address : Address) (value : Nat) :
    ClientM TransactionReceipt := do
  let recipientPreferredNetwork ← getPreferredNetwork address
  switchChainOp (jsNumber recipientPreferredNetwork)
  payAddress address value

/-- Client `payENSOnPreferedNetwork` (source lines 398–409). -/
def payENSOnPreferedNetwork (name : String) (value : Nat) :
    ClientM TransactionReceipt := do
  let address ← getEnsAddressOp name
  match address with
  | none => jsThrow ("Could not resolve address for ENS name: " ++ name)
  | some a => payOnPreferedNetwork a value

end Client

namespace Client

/-- `ListenerState`: the client instance's `watchers` array of recorded
cancellation handles, next to the set of its currently open subscriptions
(handles are identified by the numeric id of the subscription they cancel). -/
structure ListenerState where
  watchers : List Nat
  active : List Nat
deriving DecidableEq, Repr

/-- Invoking one cancellation handle (`unwatch()`): the subscription it
guards stops being active; invoking it again is a no-op. -/
def unwatch (active : List Nat) (w : Nat) : List Nat :=
  active.filter (fun j => j != w)

/-- `removeContractEventListeners`:
`watchers.forEach(unwatch => unwatch()); watchers.length = 0;` -/
def removeContractEventListeners (s : ListenerState) : ListenerState :=
  { watchers := [], active := s.watchers.foldl unwatch s.active }

/-- The `onLogs` contract-event callback; only its presence (`some`) or
absence (`none`, JS `undefined` for an omitted optional field) matters. -/
abbrev OnLogsCallback : Type := List PreferedNetworkRegistry.NetworkPreferenceSet → Unit

/-- `startContractEventListeners`, untyped variant (source lines 167–176):
`if (configuration.callbacks.onContractEvents)` — a truthiness test, so the
subscription is opened exactly when a callback was supplied; its cancellation
handle is pushed onto `watchers`. -/
def startContractEventListeners (onContractEvents : Option OnLogsCallback)
    (s : ListenerState) (fresh : Nat) : ListenerState :=
  match onContractEvents with
  | some _ => { watchers := s.watchers ++ [fresh], active := s.active ++ [fresh] }
  | none => s

/-- JS `x !== null` for `x : WatchContractEventOnLogsFn | undefined`: the
value is a function or `undefined`, never `null`, and `undefined !== null`
evaluates to `true`, so the test holds for every value of this type. -/
def jsStrictNeNull : Option OnLogsCallback → Bool
  | some _ => true
  | none => true

/-- `startContractEventListeners`, strict-typed variant (source lines
416–426): `if (configuration?.callbacks?.onContractEvents !== null)`. -/
def startContractEventListeners2 (onContractEvents : Option OnLogsCallback)
    (s : ListenerState) (fresh : Nat) : ListenerState :=
  if jsStrictNeNull onContractEvents then
    { watchers := s.watchers ++ [fresh], active := s.active ++ [fresh] }
  else s

/-- Folding `unwatch` over handles covering every active subscription
cancels them all. -/
theorem foldl_unwatch_eq_nil (l : List Nat) :
    ∀ init : List Nat, (∀ a ∈ init, a ∈ l) → l.foldl unwatch init = [] := by
  induction l with
  | nil =>
      intro init h
      exact List.eq_nil_iff_forall_not_mem.mpr fun a ha => List.not_mem_nil a (h a ha)
  | cons w ws ih =>
      intro init h
      simp only [List.foldl_cons]
      refine ih (unwatch init w) ?_
      intro a ha
      rw [unwatch, List.mem_filter] at ha
      have hmem := h a ha.1
      have hne : a ≠ w := by simpa using ha.2
      rcases List.mem_cons.mp hmem with h1 | h1
      · exact absurd h1 hne
      · exact h1

end Client

/-- Claim C7: `removeContractEventListeners` is idempotent: the state after two
calls equals the state after one, the first call already discards every
recorded handle (the second call operates on an empty collection), and when
every active subscription is covered by a recorded handle — as in any state
this client produces — one call leaves zero active subscriptions.  The
operation is a total function, so it never throws. -/
theorem removeContractEventListeners_idempotent :
    (∀ s : Client.ListenerState,
        Client.removeContractEventListeners (Client.removeContractEventListeners s)
          = Client.removeContractEventListeners s) ∧
    (∀ s : Client.ListenerState,
        (Client.removeContractEventListeners s).watchers = []) ∧
    (∀ s : Client.ListenerState, (∀ a ∈ s.active, a ∈ s.watchers) →
        (Client.removeContractEventListeners s).active = []) :=
  ⟨fun _ => rfl, fun _ => rfl,
   fun s h => Client.foldl_unwatch_eq_nil s.watchers s.active h⟩

/-- Witness for C7: a client holding two recorded handles for its two open
subscriptions has zero active subscriptions after one removal call. -/
theorem removeContractEventListeners_idempotent_witness :
    (Client.removeContractEventListeners ⟨[1, 2], [1, 2]⟩).active = [] :=
  removeContractEventListeners_idempotent.2.2 ⟨[1, 2], [1, 2]⟩ (by decide)

/-- Claim C8: in the strict-typed variant the construction-time guard is
`!== null`, which an omitted (`undefined`) callback also passes, so a
subscription is opened and recorded even when no log callback was supplied —
the claimed "if and only if" fails there.  The untyped variant's truthiness
guard does open exactly one subscription when a callback is supplied and none
otherwise. -/
theorem startContractEventListeners_null_check_bug :
    (Client.startContractEventListeners2 none ⟨[], []⟩ 0).watchers = [0] ∧
    (Client.startContractEventListeners none ⟨[], []⟩ 0).watchers = [] ∧
    (Client.startContractEventListeners (some fun _ => ()) ⟨[], []⟩ 0).watchers = [0] :=
  ⟨rfl, rfl, rfl⟩

/-- Claim C2: `setPreferredNetwork(0)` always fails: the contract reverts with
`"Invalid network ID"` for every caller and every state, and the client
wrapper surfaces exactly that error from the contract call, uncaught and
untranslated (its trace shows the write was attempted with `0`). -/
theorem setPreferredNetwork_zero_always_fails :
    (∀ (s : PreferedNetworkRegistry.ContractState) (A : Address),
        PreferedNetworkRegistry.setPreferredNetwork s A 0
          = .error "Invalid network ID") ∧
    (∀ (cs : PreferedNetworkRegistry.ContractState) (acc : Address)
        (rest : List Address) (ens : String → Option Address) (ch no : Nat),
        Client.setPreferredNetwork 0 ⟨⟨cs, acc :: rest, ens, ch, no⟩, []⟩ =
          (.error "Invalid network ID",
           ⟨⟨cs, acc :: rest, ens, ch, no⟩,
            [.getAddresses, .writeSetPreferredNetwork acc 0]⟩)) :=
  ⟨fun _ _ => rfl, fun _ _ _ _ _ _ => rfl⟩

open Client in
/-- Claim C3: when the ENS resolver maps `name` to absent, `payENSAddress name v`
throws the explicit `"Could not resolve address for ENS name: ..."` error,
and its collaborator trace — a single resolver call — issues no
`sendTransaction` (no transfer is performed). -/
theorem payENSAddress_unresolved_throws_and_no_transfer
    (cs : PreferedNetworkRegistry.ContractState) (wa : List Address)
    (ens : String → Option Address) (ch no : Nat) (name : String) (v : Nat)
    (h : ens name = none) :
    Client.payENSAddress name v ⟨⟨cs, wa, ens, ch, no⟩, []⟩ =
      (.error ("Could not resolve address for ENS name: " ++ name),
       ⟨⟨cs, wa, ens, ch, no⟩, [.getEnsAddress name]⟩) ∧
    ((Client.payENSAddress name v ⟨⟨cs, wa, ens, ch, no⟩, []⟩).2.trace.all
      fun e => !e.isSendTransaction) = true := by
  have hrun : Client.payENSAddress name v ⟨⟨cs, wa, ens, ch, no⟩, []⟩ =
      (.error ("Could not resolve address for ENS name: " ++ name),
       ⟨⟨cs, wa, ens, ch, no⟩, [.getEnsAddress name]⟩) := by
    simp only [Client.payENSAddress, Bind.bind, Monad.toBind, instMonadClientM,
      ClientM.bind, Client.getEnsAddressOp, h, Client.jsThrow, List.nil_append]
  exact ⟨hrun, by rw [hrun]; rfl⟩

open Client in
/-- Witness for C3: in a world whose resolver maps every name to absent,
paying `"alice.eth"` errors out without a transfer. -/
theorem payENSAddress_unresolved_witness :
    Client.payENSAddress "alice.eth" 5
        ⟨⟨fun _ => 0, ["0xAAA"], fun _ => none, 1, 0⟩, []⟩ =
      (.error ("Could not resolve address for ENS name: " ++ "alice.eth"),
       ⟨⟨fun _ => 0, ["0xAAA"], fun _ => none, 1, 0⟩, [.getEnsAddress "alice.eth"]⟩) :=
  (payENSAddress_unresolved_throws_and_no_transfer (fun _ => 0) ["0xAAA"]
    (fun _ => none) 1 0 "alice.eth" 5 rfl).1

namespace Client

/-- Demo resolver for C4: `"alice.eth"` is bound to `"0xA"` and `"wevm.eth"`
to `"0xW"`. -/
def ensDemo : String → Option Address := fun s =>
  if s = "alice.eth" then some "0xA" else if s = "wevm.eth" then some "0xW" else none

/-- Demo resolver for C4 in which `"alice.eth"` resolves but `"wevm.eth"`
does not. -/
def ensDemoNoWevm : String → Option Address := fun s =>
  if s = "alice.eth" then some "0xA" else none

/-- Demo registry storage for C4: `"0xA"` prefers network `7`, `"0xW"`
prefers network `3`. -/
def csDemo : PreferedNetworkRegistry.ContractState := fun a =>
  if a = "0xA" then 7 else if a = "0xW" then 3 else 0

end Client

open Client in
/-- Claim C4 (code bug): `getPreferedNetworkFromENS` resolves the hard-coded
`normalize("wevm.eth")` instead of its `ens` argument, contradicting its own
doc comment ("Resolves the prefered network for `ens`").  Called with
`"alice.eth"` — bound to `"0xA"`, whose stored preference is `7` — it
returns `3`, the preference of `"wevm.eth"`'s address; and in a world where
`"alice.eth"` resolves but `"wevm.eth"` does not, it returns absent even
though the given name resolves. -/
theorem getPreferedNetworkFromENS_ignores_argument :
    (Client.getPreferedNetworkFromENS "alice.eth"
        ⟨⟨Client.csDemo, ["0xAAA"], Client.ensDemo, 1, 0⟩, []⟩).1 = .ok (some 3) ∧
    Client.ensDemo "alice.eth" = some "0xA" ∧
    PreferedNetworkRegistry.getPreferredNetwork Client.csDemo "0xA" = 7 ∧
    (3 : Nat) ≠ 7 ∧
    (Client.getPreferedNetworkFromENS "alice.eth"
        ⟨⟨Client.csDemo, ["0xAAA"], Client.ensDemoNoWevm, 1, 0⟩, []⟩).1 = .ok none ∧
    Client.ensDemoNoWevm "alice.eth" = some "0xA" :=
  ⟨rfl, rfl, rfl, by decide, rfl, rfl⟩

open Client in
/-- Claim C6 counterexample: at a concrete world (every preference `5`, signer
`"0xAAA"`), `payOnPreferedNetwork "0xBBB" 9` issues five collaborator calls —
a preference read, a chain switch, the wallet account lookup, the transfer,
and the receipt wait — not the claimed exactly two. -/
theorem payOnPreferedNetwork_not_two_calls :
    (Client.payOnPreferedNetwork "0xBBB" 9
        ⟨⟨fun _ => 5, ["0xAAA"], fun _ => none, 1, 0⟩, []⟩).2.trace =
      [.readPreference "0xBBB", .switchChain 5, .getAddresses,
       .sendTransaction "0xAAA" "0xBBB" 9, .waitForTransactionReceipt 0] ∧
    (Client.payOnPreferedNetwork "0xBBB" 9
        ⟨⟨fun _ => 5, ["0xAAA"], fun _ => none, 1, 0⟩, []⟩).2.trace.length ≠ 2 :=
  ⟨rfl, by decide⟩

open Client in
/-- Claim C6 amended: `payOnPreferedNetwork A v` issues its collaborator calls in
this order: first a read of `A`'s stored preference, then a switch of the
active network to `Number` of that preference, then the payment of `A` (the
wallet account lookup, the `sendTransaction` to `A` of `v`, and the receipt
wait); in particular the preference read strictly precedes the payment. -/
theorem payOnPreferedNetwork_call_order
    (cs : PreferedNetworkRegistry.ContractState) (acc : Address)
    (rest : List Address) (ens : String → Option Address) (ch no : Nat)
    (A : Address) (v : Nat) :
    Client.payOnPreferedNetwork A v ⟨⟨cs, acc :: rest, ens, ch, no⟩, []⟩ =
      (.ok ⟨no⟩,
       ⟨⟨cs, acc :: rest, ens, Client.jsNumber (cs A), no + 1⟩,
        [.readPreference A, .switchChain (Client.jsNumber (cs A)), .getAddresses,
         .sendTransaction acc A v, .waitForTransactionReceipt no]⟩) := rfl

open Client in
/-- Claim C10 counterexample: with stored preference `2 ^ 53` — strictly greater
than `2 ^ 53 - 1` — the `Number` conversion is still exact and
`switchToPreferredNetwork` repoints the wallet at exactly the stored
preference, refuting "exact only when the preference is at most
`2 ^ 53 - 1`" and "for larger stored preferences the switched-to network
identifier differs". -/
theorem jsNumber_exact_at_two_pow_53 :
    Client.jsNumber (2 ^ 53) = 2 ^ 53 ∧
    ¬(2 ^ 53 ≤ 2 ^ 53 - 1) ∧
    (Client.switchToPreferredNetwork
        ⟨⟨fun _ => 2 ^ 53, ["0xAAA"], fun _ => none, 1, 0⟩, []⟩).2.world.activeChainId
      = 2 ^ 53 := by
  refine ⟨by decide, by decide, ?_⟩
  show Client.jsNumber (2 ^ 53) = 2 ^ 53
  decide

open Client in
/-- Claim C10 amended: the chain id passed to the network-switch call by
`switchToPreferredNetwork` and `payOnPreferedNetwork` is the stored
preference converted by JS `Number` (round to nearest double); the
conversion is exact for every preference up to and including `2 ^ 53`
(and for larger doubles-representable values), while some larger
preferences, such as `2 ^ 53 + 1`, convert inexactly, making the
switched-to identifier differ from the stored preference. -/
theorem switch_id_is_number_of_preference
    : (∀ (cs : PreferedNetworkRegistry.ContractState) (acc : Address)
          (rest : List Address) (ens : String → Option Address) (ch no : Nat),
          (Client.switchToPreferredNetwork
              ⟨⟨cs, acc :: rest, ens, ch, no⟩, []⟩).2.world.activeChainId
            = Client.jsNumber (cs acc)) ∧
      (∀ (cs : PreferedNetworkRegistry.ContractState) (acc : Address)
          (rest : List Address) (ens : String → Option Address) (ch no : Nat)
          (A : Address) (v : Nat),
          (Client.payOnPreferedNetwork A v
              ⟨⟨cs, acc :: rest, ens, ch, no⟩, []⟩).2.world.activeChainId
            = Client.jsNumber (cs A)) ∧
      (∀ m : Nat, m ≤ 2 ^ 53 → Client.jsNumber m = m) ∧
      Client.jsNumber (2 ^ 53 + 1) = 2 ^ 53 ∧ (2 ^ 53 : Nat) + 1 ≠ 2 ^ 53 := by
  refine ⟨fun _ _ _ _ _ _ => rfl, fun _ _ _ _ _ _ _ _ => rfl, ?_, by decide, by decide⟩
  intro m hm
  rcases lt_or_eq_of_le hm with hlt | heq
  · unfold Client.jsNumber
    rw [if_pos hlt]
  · subst heq
    decide

/-- Witness for the amended C10: the conversion is exact at the small
preference `5`. -/
theorem switch_id_is_number_of_preference_witness :
    Client.jsNumber 5 = 5 :=
  switch_id_is_number_of_preference.2.2.1 5 (by decide)
